import Mathlib

set_option maxRecDepth 100000

/-!
Verification of the three-agent research pipeline in `src/app.py`.

The program is a Streamlit script that turns a topic string into a research
report through three model calls: a Planner agent (`create_research_plan`),
a Researcher agent (`conduct_research`, once per plan question) and a Writer
agent (`write_summary_report`).  The model gateway (`generate_content`) and
the JSON decoder (`json.loads`) are external collaborators; here they are
parameters of the embedding, so every theorem quantifies over their
behaviour.  Presentation calls (`st.error`, `st.status`, progress bars) have
no effect on the data flow and are elided.  Each gateway invocation is
recorded in a call trace so that claims about which stages issue calls can
be stated.
-/

/-- A parsed JSON value, the possible results of `json.loads`.
JSON floating-point numbers are outside the model; the claims under study
only exercise arrays of strings and non-array witnesses. -/
inductive Jv where
  | jnull
  | jbool (b : Bool)
  | jnum (n : Int)
  | jstr (s : String)
  | jarr (xs : List Jv)
  | jobj (fields : List (String × Jv))
deriving Repr

/-- Python truthiness (`if not plan:`) of a parsed JSON value. -/
def pyTruthy : Jv → Bool
  | .jnull => false
  | .jbool b => b
  | .jnum n => n != 0
  | .jstr s => !s.isEmpty
  | .jarr xs => !xs.isEmpty
  | .jobj fs => !fs.isEmpty

/-- A Python exception, as far as the pipeline can observe one. -/
inductive PyExn where
  | jsonDecodeError (msg : String)
  | gatewayError (msg : String)
  | typeError (msg : String)
deriving Repr, DecidableEq

/-- `len(v)` for a parsed JSON value: defined for strings, lists and dicts,
a `TypeError` otherwise. -/
def pyLen : Jv → Except PyExn Nat
  | .jstr s => .ok s.length
  | .jarr xs => .ok xs.length
  | .jobj fs => .ok fs.length
  | _ => .error (.typeError "object has no len()")

/-- Iterating a parsed JSON value (`for question in plan`): a list yields its
elements, a string its characters, a dict its keys; anything else raises
`TypeError`. -/
def pyIter : Jv → Except PyExn (List Jv)
  | .jstr s => .ok (s.toList.map (fun c => .jstr (String.mk [c])))
  | .jarr xs => .ok xs
  | .jobj fs => .ok (fs.map (fun p => .jstr p.1))
  | _ => .error (.typeError "object is not iterable")

mutual

/-- Python `repr` of a parsed JSON value (string escaping elided, which no
claim exercises). -/
def pyRepr : Jv → String
  | .jnull => "None"
  | .jbool true => "True"
  | .jbool false => "False"
  | .jnum n => toString n
  | .jstr s => "'" ++ s ++ "'"
  | .jarr xs => "[" ++ pyReprList xs ++ "]"
  | .jobj fs => "\x7b" ++ pyReprFields fs ++ "\x7d"

/-- Comma-separated `repr`s of the elements of a list. -/
def pyReprList : List Jv → String
  | [] => ""
  | [x] => pyRepr x
  | x :: y :: xs => pyRepr x ++ ", " ++ pyReprList (y :: xs)

/-- Comma-separated `repr`s of the fields of a dict. -/
def pyReprFields : List (String × Jv) → String
  | [] => ""
  | [(k, v)] => "'" ++ k ++ "': " ++ pyRepr v
  | (k, v) :: f :: fs => "'" ++ k ++ "': " ++ pyRepr v ++ ", " ++ pyReprFields (f :: fs)

end

/-- Python `str()` of a parsed JSON value, as an f-string interpolation
performs it: a string interpolates as itself, everything else as its repr. -/
def pyStr : Jv → String
  | .jstr s => s
  | v => pyRepr v

/-- The three role-specialised model instances of the source
(`get_planner_agent`, `get_researcher_agent`, `get_writer_agent`). -/
inductive Agent where
  | planner
  | researcher
  | writer
deriving Repr, DecidableEq

/-- One outbound `generate_content` invocation: which agent issued it and
with which prompt. -/
structure GatewayCall where
  agent : Agent
  prompt : String
deriving Repr, DecidableEq

/-- The external model gateway: for an agent and a prompt, either the
response text or the message of the raised exception. -/
def Gateway : Type := Agent → String → Except String String

/-- The external JSON decoder `json.loads`: either the parsed value or the
message of the raised `json.JSONDecodeError`. -/
def JsonLoads : Type := String → Except String Jv

/-- The Planner prompt (src/app.py lines 68-77), with the topic
interpolated. -/
def plannerPrompt (topic : String) : String :=
  "\n    You are a world-class research assistant. Your task is to create a concise, step-by-step research plan \n    for the given topic. The plan should consist of 3 to 5 essential questions that, when answered, will provide \n    a comprehensive overview of the topic.\n\n    Topic: \"" ++ topic ++ "\"\n\n    Respond with ONLY a valid JSON array of strings, where each string is a question.\n    Example: [\"What is the history of X?\", \"What are the main components of X?\", \"What is the future of X?\"]\n    "

/-- The Researcher prompt (src/app.py lines 110-119), with topic and
question interpolated. -/
def researcherPrompt (topic question : String) : String :=
  "\n    You are a highly skilled researcher. Your goal is to provide a detailed and accurate answer \n    to the question provided below. Your answer should be concise and directly address the question, \n    while keeping the main research topic in mind for context.\n\n    Main Topic: \"" ++ topic ++ "\"\n    Question to Answer: \"" ++ question ++ "\"\n\n    Provide a clear, well-written answer.\n    "

/-- The Writer prompt (src/app.py lines 153-165), with topic and the
serialized findings block interpolated. -/
def writerPrompt (topic findingsText : String) : String :=
  "\n    You are an expert report writer. Your task is to synthesize the following research findings \n    into a single, cohesive, and well-structured summary report. Do not simply list the answers; \n    weave them together into a coherent narrative that is easy to read and understand.\n\n    The original research topic was: \"" ++ topic ++ "\"\n\n    Use markdown for formatting (e.g., headings, bold text, bullet points) to improve readability.\n    Ensure the final report flows logically from one point to the next.\n\n    Here are the research findings you must use:\n    " ++ findingsText ++ "\n    "

/-- The `try:` block of `create_research_plan` (src/app.py lines 79-83):
call the planner agent, then `json.loads` the response text.  Either
external call may raise. -/
def create_research_plan_body (jl : JsonLoads) (gw : Gateway) (topic : String) :
    Except PyExn Jv × List GatewayCall :=
  let call : GatewayCall := ⟨.planner, plannerPrompt topic⟩
  match gw .planner (plannerPrompt topic) with
  | .error e => (.error (.gatewayError e), [call])
  | .ok text =>
    match jl text with
    | .error e => (.error (.jsonDecodeError e), [call])
    | .ok v => (.ok v, [call])

/-- Does an exception match `except (ValueError, json.JSONDecodeError)`,
the first handler of `create_research_plan` (src/app.py line 84)? -/
def isValueOrDecodeError : PyExn → Bool
  | .jsonDecodeError _ => true
  | _ => false

/-- `create_research_plan` (src/app.py lines 52-89): the try block with its
two handlers, both of which report the error and return `[]`. -/
def create_research_plan (jl : JsonLoads) (gw : Gateway) (topic : String) :
    Except PyExn Jv × List GatewayCall :=
  match create_research_plan_body jl gw topic with
  | (.ok v, calls) => (.ok v, calls)
  | (.error e, calls) =>
    if isValueOrDecodeError e then
      (.ok (.jarr []), calls)
    else
      (.ok (.jarr []), calls)

/-- The `try:` block of `conduct_research` (src/app.py lines 121-123):
call the researcher agent and strip the response text. -/
def conduct_research_body (gw : Gateway) (topic question : String) :
    Except PyExn String × List GatewayCall :=
  let call : GatewayCall := ⟨.researcher, researcherPrompt topic question⟩
  match gw .researcher (researcherPrompt topic question) with
  | .error e => (.error (.gatewayError e), [call])
  | .ok text => (.ok text.trim, [call])

/-- `conduct_research` (src/app.py lines 94-126): the try block with its
`except Exception` handler, which reports the error and returns the
placeholder answer for the question. -/
def conduct_research (gw : Gateway) (topic question : String) :
    Except PyExn String × List GatewayCall :=
  match conduct_research_body gw topic question with
  | (.ok v, calls) => (.ok v, calls)
  | (.error _, calls) =>
    (.ok ("Error: Could not retrieve research for '" ++ question ++ "'."), calls)

/-- One finding dict `{'question': question, 'answer': answer}` as appended
by the research loop (src/app.py line 224).  The question is stored as the
plan element itself, a parsed JSON value. -/
structure Finding where
  question : Jv
  answer : String
deriving Repr

/-- The serialization loop of `write_summary_report` (src/app.py lines
149-151): start from the empty string and append one block per finding. -/
def findings_text (research_findings : List Finding) : String :=
  research_findings.foldl
    (fun acc find =>
      acc ++ "Question: " ++ pyStr find.question ++ "\nAnswer: " ++ find.answer ++ "\n\n---\n\n")
    ""

/-- The `try:` block of `write_summary_report` (src/app.py lines 167-169):
call the writer agent and return its text verbatim. -/
def write_summary_report_body (gw : Gateway) (topic : String)
    (research_findings : List Finding) : Except PyExn String × List GatewayCall :=
  let call : GatewayCall := ⟨.writer, writerPrompt topic (findings_text research_findings)⟩
  match gw .writer (writerPrompt topic (findings_text research_findings)) with
  | .error e => (.error (.gatewayError e), [call])
  | .ok text => (.ok text, [call])

/-- `write_summary_report` (src/app.py lines 132-172): the try block with
its `except Exception` handler, which reports the error and returns a fixed
fallback string. -/
def write_summary_report (gw : Gateway) (topic : String)
    (research_findings : List Finding) : Except PyExn String × List GatewayCall :=
  match write_summary_report_body gw topic research_findings with
  | (.ok v, calls) => (.ok v, calls)
  | (.error _, calls) =>
    (.ok "Error: Could not generate the final report.", calls)

/-- The research loop of the orchestrator (src/app.py lines 221-225): one
`conduct_research` call per plan element, in order, appending a finding for
each.  An exception escaping an iteration would abort the loop, which the
`Except` threading records. -/
def research_loop (gw : Gateway) (topic : String) :
    List Jv → Except PyExn (List Finding) × List GatewayCall
  | [] => (.ok [], [])
  | q :: qs =>
    let (r, c₁) := conduct_research gw topic (pyStr q)
    match r with
    | .error e => (.error e, c₁)
    | .ok answer =>
      let (rest, c₂) := research_loop gw topic qs
      match rest with
      | .error e => (.error e, c₁ ++ c₂)
      | .ok finds => (.ok ({ question := q, answer := answer } :: finds), c₁ ++ c₂)

/-- `st.session_state` as the run uses it: the three keys the workflow
stores. -/
structure SessionState where
  plan : Option Jv := none
  findings : Option (List Finding) := none
  report : Option String := none
deriving Repr

/-- How one press of the Start Research button ends. -/
inductive RunOutcome where
  /-- Empty topic: `st.error` is shown and the workflow never starts. -/
  | rejectedEmptyTopic
  /-- Falsy plan: the status is set to error and `st.stop()` ends the run. -/
  | abortedPlanning
  /-- The report was stored and rendered. -/
  | done (report : String)
deriving Repr, DecidableEq

/-- The observable result of one run: how it ended (or which exception
escaped), the final session state, and the gateway calls issued in order. -/
structure RunResult where
  outcome : Except PyExn RunOutcome
  finalSession : SessionState
  calls : List GatewayCall
deriving Repr

/-- The orchestration block under the Start Research button
(src/app.py lines 193-244): reject an empty topic, clear the session,
plan, stop on a falsy plan, research every plan item sequentially, write
the report, store and render it. -/
def runPipeline (jl : JsonLoads) (gw : Gateway) (prev : SessionState)
    (topic : String) : RunResult :=
  if topic = "" then
    { outcome := .ok .rejectedEmptyTopic, finalSession := prev, calls := [] }
  else
    let s₀ : SessionState := {}
    let (planR, c₁) := create_research_plan jl gw topic
    match planR with
    | .error e => { outcome := .error e, finalSession := s₀, calls := c₁ }
    | .ok plan =>
      if !pyTruthy plan then
        { outcome := .ok .abortedPlanning, finalSession := s₀, calls := c₁ }
      else
        let s₁ : SessionState := { s₀ with plan := some plan }
        match pyLen plan with
        | .error e => { outcome := .error e, finalSession := s₁, calls := c₁ }
        | .ok _totalSteps =>
          match pyIter plan with
          | .error e => { outcome := .error e, finalSession := s₁, calls := c₁ }
          | .ok questions =>
            let (findR, c₂) := research_loop gw topic questions
            match findR with
            | .error e =>
              { outcome := .error e, finalSession := s₁, calls := c₁ ++ c₂ }
            | .ok finds =>
              let s₂ : SessionState := { s₁ with findings := some finds }
              let (repR, c₃) := write_summary_report gw topic finds
              match repR with
              | .error e =>
                { outcome := .error e, finalSession := s₂, calls := c₁ ++ c₂ ++ c₃ }
              | .ok finalReport =>
                { outcome := .ok (.done finalReport),
                  finalSession := { s₂ with report := some finalReport },
                  calls := c₁ ++ c₂ ++ c₃ }

/-! ### Characterizations of the agent functions -/

/-- The value `create_research_plan` actually returns: the parsed response
on success and `[]` after either exception handler. -/
def plannerValue (jl : JsonLoads) (gw : Gateway) (topic : String) : Jv :=
  match gw .planner (plannerPrompt topic) with
  | .error _ => .jarr []
  | .ok text =>
    match jl text with
    | .error _ => .jarr []
    | .ok v => v

theorem create_research_plan_eq (jl : JsonLoads) (gw : Gateway) (topic : String) :
    create_research_plan jl gw topic =
      (.ok (plannerValue jl gw topic), [⟨.planner, plannerPrompt topic⟩]) := by
  simp only [create_research_plan, create_research_plan_body, plannerValue]
  cases h : gw .planner (plannerPrompt topic) with
  | error e => rfl
  | ok text =>
    cases h2 : jl text with
    | error e => simp [h2, isValueOrDecodeError]
    | ok v => simp only [h2]

/-- The answer `conduct_research` actually returns: the trimmed response on
success, the placeholder after the `except Exception` handler. -/
def researchAnswer (gw : Gateway) (topic question : String) : String :=
  match gw .researcher (researcherPrompt topic question) with
  | .ok text => text.trim
  | .error _ => "Error: Could not retrieve research for '" ++ question ++ "'."

theorem conduct_research_eq (gw : Gateway) (topic question : String) :
    conduct_research gw topic question =
      (.ok (researchAnswer gw topic question),
       [⟨.researcher, researcherPrompt topic question⟩]) := by
  simp only [conduct_research, conduct_research_body, researchAnswer]
  cases h : gw .researcher (researcherPrompt topic question) with
  | error e => rfl
  | ok text => rfl

/-- The report `write_summary_report` actually returns: the response
verbatim on success, the fixed fallback string after the handler. -/
def writerResult (gw : Gateway) (topic : String) (fs : List Finding) : String :=
  match gw .writer (writerPrompt topic (findings_text fs)) with
  | .ok text => text
  | .error _ => "Error: Could not generate the final report."

theorem write_summary_report_eq (gw : Gateway) (topic : String) (fs : List Finding) :
    write_summary_report gw topic fs =
      (.ok (writerResult gw topic fs),
       [⟨.writer, writerPrompt topic (findings_text fs)⟩]) := by
  simp only [write_summary_report, write_summary_report_body, writerResult]
  cases h : gw .writer (writerPrompt topic (findings_text fs)) with
  | error e => rfl
  | ok text => rfl

theorem research_loop_eq (gw : Gateway) (topic : String) (qs : List Jv) :
    research_loop gw topic qs =
      (.ok (qs.map fun q => { question := q, answer := researchAnswer gw topic (pyStr q) }),
       qs.map fun q => GatewayCall.mk .researcher (researcherPrompt topic (pyStr q))) := by
  induction qs with
  | nil => rfl
  | cons q qs ih => simp [research_loop, conduct_research_eq, ih]

/-! ### The serialized findings block -/

/-- One serialized finding, exactly the f-string of src/app.py line 151. -/
def findingBlock (find : Finding) : String :=
  "Question: " ++ pyStr find.question ++ "\nAnswer: " ++ find.answer ++ "\n\n---\n\n"

theorem string_join_cons (s : String) (l : List String) :
    String.join (s :: l) = s ++ String.join l := by
  have key : ∀ (l : List String) (a : String),
      l.foldl (fun r t => r ++ t) a = a ++ l.foldl (fun r t => r ++ t) "" := by
    intro l
    induction l with
    | nil => intro a; simp
    | cons x xs ih =>
      intro a
      simp only [List.foldl]
      rw [ih (a ++ x), ih ("" ++ x), String.empty_append, String.append_assoc]
  simp only [String.join, List.foldl]
  rw [key _ ("" ++ s), String.empty_append]

theorem findings_text_acc (fs : List Finding) (acc : String) :
    List.foldl
      (fun acc find =>
        acc ++ "Question: " ++ pyStr find.question ++ "\nAnswer: " ++ find.answer ++ "\n\n---\n\n")
      acc fs = acc ++ String.join (fs.map findingBlock) := by
  induction fs generalizing acc with
  | nil => simp [String.join]
  | cons f fs ih =>
    simp only [List.foldl, List.map]
    rw [string_join_cons, ih]
    simp [findingBlock, String.append_assoc]

/-- The serialization loop produces, for each finding in order, the block
"Question: q\nAnswer: a" followed by the separator, concatenated in
`FindingSet` order. -/
theorem findings_text_eq (fs : List Finding) :
    findings_text fs = String.join (fs.map findingBlock) := by
  simpa using findings_text_acc fs ""

@[simp] theorem pyStr_jstr (s : String) : pyStr (.jstr s) = s := rfl

/-- The findings the research loop assembles for a plan of question
strings. -/
def planFindings (gw : Gateway) (topic : String) (qs : List String) : List Finding :=
  qs.map fun q => { question := .jstr q, answer := researchAnswer gw topic q }

/-- Full characterization of one run on a non-empty topic whose plan parses
to a non-empty array of question strings: the session and the call trace it
produces. -/
theorem runPipeline_strings (jl : JsonLoads) (gw : Gateway) (prev : SessionState)
    (topic : String) (qs : List String)
    (htopic : topic ≠ "")
    (hplan : (create_research_plan jl gw topic).1 = .ok (.jarr (qs.map .jstr)))
    (hne : qs ≠ []) :
    runPipeline jl gw prev topic =
      { outcome := .ok (.done (writerResult gw topic (planFindings gw topic qs))),
        finalSession :=
          { plan := some (.jarr (qs.map .jstr)),
            findings := some (planFindings gw topic qs),
            report := some (writerResult gw topic (planFindings gw topic qs)) },
        calls :=
          ⟨.planner, plannerPrompt topic⟩ ::
            ((qs.map fun q => ⟨.researcher, researcherPrompt topic q⟩) ++
              [⟨.writer, writerPrompt topic (findings_text (planFindings gw topic qs))⟩]) } := by
  obtain ⟨q, qs', rfl⟩ := List.exists_cons_of_ne_nil hne
  have hv : plannerValue jl gw topic = .jarr ((q :: qs').map .jstr) := by
    rw [create_research_plan_eq] at hplan
    exact Except.ok.inj hplan
  simp only [runPipeline, if_neg htopic, create_research_plan_eq, hv]
  simp [pyTruthy, pyLen, pyIter, research_loop_eq, write_summary_report_eq,
    planFindings, List.map_map, Function.comp_def]

/-! ### Concrete decoder and gateway fixtures -/

/-- A JSON decoder fixture covering the concrete response texts used in the
closed instances below; everything else is a decode error. -/
def jlFix : JsonLoads := fun text =>
  if text = "[]" then .ok (.jarr [])
  else if text = "[\"q1\", \"q2\"]" then .ok (.jarr [.jstr "q1", .jstr "q2"])
  else if text = "42" then .ok (.jnum 42)
  else .error "Expecting value: line 1 column 1 (char 0)"

/-- A healthy gateway: a two-question plan, an answer with surrounding
whitespace, a report. -/
def gwHappy : Gateway := fun a _p =>
  match a with
  | .planner => .ok "[\"q1\", \"q2\"]"
  | .researcher => .ok " ans "
  | .writer => .ok "final report"

/-- A gateway that fails on exactly one research question: the researcher
prompt for question "q2" of topic "t". -/
def gwFailQ2 : Gateway := fun a p =>
  match a with
  | .planner => .ok "[\"q1\", \"q2\"]"
  | .researcher => if p = researcherPrompt "t" "q2" then .error "boom" else .ok " ans "
  | .writer => .ok "final report"

/-- A gateway whose writer calls fail. -/
def gwWriterDown : Gateway := fun a _p =>
  match a with
  | .planner => .ok "[\"q1\", \"q2\"]"
  | .researcher => .ok "ans"
  | .writer => .error "boom"

/-- A gateway on which every call fails. -/
def gwAllFail : Gateway := fun _ _ => .error "quota exceeded"

/-- A gateway whose planner returns the JSON text of an empty array. -/
def gwEmptyPlan : Gateway := fun a _p =>
  match a with
  | .planner => .ok "[]"
  | _ => .ok "x"

/-- A gateway whose planner returns well-formed JSON that is not an
array. -/
def gwNonArray : Gateway := fun a _p =>
  match a with
  | .planner => .ok "42"
  | _ => .ok "x"

/-! ### The claims -/

/-- C1: for every research plan, running the Researching stage produces a
findings sequence of exactly the plan's length, whose i-th finding's
question equals the i-th plan question, with findings appended strictly in
plan order. -/
theorem researching_stage_findings_track_plan (gw : Gateway) (topic : String)
    (qs : List String) :
    ∃ finds, (research_loop gw topic (qs.map .jstr)).1 = .ok finds
      ∧ finds.map Finding.question = qs.map .jstr
      ∧ finds.length = qs.length := by
  refine ⟨qs.map fun q => ⟨.jstr q, researchAnswer gw topic q⟩, ?_, ?_, ?_⟩
  · rw [research_loop_eq]
    simp [List.map_map, Function.comp_def]
  · simp [List.map_map, Function.comp_def]
  · simp

/-- C3: if the Plan Generator fails (gateway error or parse error) or
returns an empty plan, the run aborts in Planning; the planner's call is
the only gateway call ever issued, so no Researching- or Writing-stage
call follows. -/
theorem empty_or_failed_plan_aborts_run (jl : JsonLoads) (gw : Gateway)
    (prev : SessionState) (topic : String)
    (htopic : topic ≠ "")
    (hfail : (∃ e, gw .planner (plannerPrompt topic) = .error e)
      ∨ (∃ text e, gw .planner (plannerPrompt topic) = .ok text ∧ jl text = .error e)
      ∨ (create_research_plan jl gw topic).1 = .ok (.jarr [])) :
    (runPipeline jl gw prev topic).outcome = .ok .abortedPlanning
    ∧ (runPipeline jl gw prev topic).calls = [⟨.planner, plannerPrompt topic⟩] := by
  have hv : plannerValue jl gw topic = .jarr [] := by
    rcases hfail with ⟨e, he⟩ | ⟨text, e, hok, herr⟩ | h
    · simp [plannerValue, he]
    · simp [plannerValue, hok, herr]
    · rw [create_research_plan_eq] at h
      exact Except.ok.inj h
  simp only [runPipeline, if_neg htopic, create_research_plan_eq, hv]
  simp [pyTruthy]

theorem empty_or_failed_plan_aborts_run_witness :
    ("t" : String) ≠ ""
    ∧ (runPipeline jlFix gwAllFail {} "t").outcome = .ok .abortedPlanning
    ∧ (runPipeline jlFix gwAllFail {} "t").calls = [⟨.planner, plannerPrompt "t"⟩] :=
  ⟨by decide,
    (empty_or_failed_plan_aborts_run jlFix gwAllFail {} "t" (by decide)
      (Or.inl ⟨"quota exceeded", rfl⟩)).1,
    (empty_or_failed_plan_aborts_run jlFix gwAllFail {} "t" (by decide)
      (Or.inl ⟨"quota exceeded", rfl⟩)).2⟩

/-- C7: an empty topic is rejected before any Model Gateway call: the run
never starts and no planning, researching or writing invocation is
issued. -/
theorem empty_topic_rejected_without_calls (jl : JsonLoads) (gw : Gateway)
    (prev : SessionState) :
    runPipeline jl gw prev "" =
      { outcome := .ok .rejectedEmptyTopic, finalSession := prev, calls := [] } := rfl

/-- C9: the orchestrator's sequencing is deterministic: two runs with the
same topic against the same gateway (fixed outputs for fixed inputs) and
decoder produce the same outcome, session and call trace, whatever session
state the previous run left behind. -/
theorem orchestrator_sequencing_deterministic (jl : JsonLoads) (gw : Gateway)
    (s₁ s₂ : SessionState) (topic : String) (h : topic ≠ "") :
    runPipeline jl gw s₁ topic = runPipeline jl gw s₂ topic := by
  simp only [runPipeline, if_neg h]

theorem orchestrator_sequencing_deterministic_witness :
    ("t" : String) ≠ ""
    ∧ runPipeline jlFix gwHappy {} "t" =
        runPipeline jlFix gwHappy
          { plan := some (.jarr []), findings := some [], report := some "stale" } "t" :=
  ⟨by decide,
    orchestrator_sequencing_deterministic jlFix gwHappy {}
      { plan := some (.jarr []), findings := some [], report := some "stale" } "t" (by decide)⟩

/-- C10: the three agent functions are total at their interface: for every
decoder, gateway and input they return an in-band value and never let an
exception escape to the caller. -/
theorem agent_functions_never_raise (jl : JsonLoads) (gw : Gateway)
    (topic question : String) (finds : List Finding) :
    (∃ v, (create_research_plan jl gw topic).1 = .ok v)
    ∧ (∃ a, (conduct_research gw topic question).1 = .ok a)
    ∧ (∃ r, (write_summary_report gw topic finds).1 = .ok r) := by
  refine ⟨⟨plannerValue jl gw topic, ?_⟩,
    ⟨researchAnswer gw topic question, ?_⟩,
    ⟨writerResult gw topic finds, ?_⟩⟩
  · simp [create_research_plan_eq]
  · simp [conduct_research_eq]
  · simp [write_summary_report_eq]

/-- C2: a Model Gateway failure on one research question does not abort the
run: the finding for that question carries the placeholder answer, the
findings sequence keeps the plan's length and question order, the Writing
stage is invoked with the serialization of all the findings (placeholder
included), and the run reaches Done. -/
theorem research_failure_degrades_without_aborting
    (jl : JsonLoads) (gw : Gateway) (prev : SessionState) (topic : String)
    (qs : List String) (k : Nat) (qk e rep : String)
    (htopic : topic ≠ "")
    (hplan : (create_research_plan jl gw topic).1 = .ok (.jarr (qs.map .jstr)))
    (hne : qs ≠ [])
    (hqk : qs[k]? = some qk)
    (hfail : gw .researcher (researcherPrompt topic qk) = .error e)
    (hwriter : ∀ ft, gw .writer (writerPrompt topic ft) = .ok rep) :
    ∃ finds,
      (runPipeline jl gw prev topic).outcome = .ok (.done rep)
      ∧ (runPipeline jl gw prev topic).finalSession.findings = some finds
      ∧ finds.length = qs.length
      ∧ finds.map Finding.question = qs.map .jstr
      ∧ finds[k]? =
          some ⟨.jstr qk, "Error: Could not retrieve research for '" ++ qk ++ "'."⟩
      ∧ ⟨.writer, writerPrompt topic (findings_text finds)⟩ ∈
          (runPipeline jl gw prev topic).calls := by
  have hrun := runPipeline_strings jl gw prev topic qs htopic hplan hne
  refine ⟨planFindings gw topic qs, ?_, ?_, ?_, ?_, ?_, ?_⟩
  · rw [hrun]
    simp [writerResult, hwriter]
  · rw [hrun]
  · simp [planFindings]
  · simp [planFindings, List.map_map, Function.comp_def]
  · simp [planFindings, List.getElem?_map, hqk, researchAnswer, hfail]
  · rw [hrun]
    simp

theorem research_failure_degrades_without_aborting_witness :
    ∃ finds,
      (runPipeline jlFix gwFailQ2 {} "t").outcome = .ok (.done "final report")
      ∧ (runPipeline jlFix gwFailQ2 {} "t").finalSession.findings = some finds
      ∧ finds.length = (["q1", "q2"] : List String).length
      ∧ finds.map Finding.question = (["q1", "q2"] : List String).map .jstr
      ∧ finds[1]? =
          some ⟨.jstr "q2", "Error: Could not retrieve research for '" ++ "q2" ++ "'."⟩
      ∧ ⟨.writer, writerPrompt "t" (findings_text finds)⟩ ∈
          (runPipeline jlFix gwFailQ2 {} "t").calls :=
  research_failure_degrades_without_aborting jlFix gwFailQ2 {} "t" ["q1", "q2"] 1
    "q2" "boom" "final report" (by decide) rfl (by decide) rfl rfl
    (fun _ft => rfl)

/-- C4 counterexample: a Model Gateway failure during the Writing stage is
not terminal: at this concrete input the run completes (it is not aborted)
and a fallback report is produced, published to the session and rendered. -/
theorem writer_failure_reaches_done_counterexample :
    (runPipeline jlFix gwWriterDown {} "t").outcome =
      .ok (.done "Error: Could not generate the final report.")
    ∧ (runPipeline jlFix gwWriterDown {} "t").finalSession.report =
        some "Error: Could not generate the final report." :=
  ⟨rfl, rfl⟩

/-- C4 amended: a Model Gateway failure during the Writing stage does not
abort the run: the writer's handler turns it into the fixed fallback
report, which the orchestrator publishes, and the run reaches Done. -/
theorem writer_failure_publishes_fallback_report
    (jl : JsonLoads) (gw : Gateway) (prev : SessionState) (topic : String)
    (qs : List String) (e : String)
    (htopic : topic ≠ "")
    (hplan : (create_research_plan jl gw topic).1 = .ok (.jarr (qs.map .jstr)))
    (hne : qs ≠ [])
    (hw : ∀ ft, gw .writer (writerPrompt topic ft) = .error e) :
    (runPipeline jl gw prev topic).outcome =
      .ok (.done "Error: Could not generate the final report.")
    ∧ (runPipeline jl gw prev topic).finalSession.report =
        some "Error: Could not generate the final report." := by
  have hrun := runPipeline_strings jl gw prev topic qs htopic hplan hne
  rw [hrun]
  simp [writerResult, hw]

theorem writer_failure_publishes_fallback_report_witness :
    ("t" : String) ≠ ""
    ∧ (runPipeline jlFix gwWriterDown {} "t").outcome =
        .ok (.done "Error: Could not generate the final report.") :=
  ⟨by decide,
    (writer_failure_publishes_fallback_report jlFix gwWriterDown {} "t" ["q1", "q2"]
      "boom" (by decide) rfl (by decide) (fun _ft => rfl)).1⟩

/-- C5 counterexample: a planner gateway failure is not propagated as a
GatewayError — the planner returns a normal empty plan, equal to what a
successfully parsed "[]" response produces, so the two cases are not
distinct; and a well-formed non-array response is returned as-is, with no
PlanParseError and no shape validation. -/
theorem planner_failure_indistinct_counterexample :
    (create_research_plan jlFix gwAllFail "t").1 = .ok (.jarr [])
    ∧ (create_research_plan jlFix gwEmptyPlan "t").1 = .ok (.jarr [])
    ∧ (create_research_plan jlFix gwNonArray "t").1 = .ok (.jnum 42) :=
  ⟨rfl, rfl, rfl⟩

/-- C5 amended: the Plan Generator does not independently validate the
shape of the structured response: a successfully parsed response of any
JSON shape is returned as-is; a parse failure and any Model Gateway failure
are both caught and converted into an empty plan, indistinguishable from a
successfully parsed empty plan, with no PlanParseError or GatewayError
surfaced to the caller. -/
theorem planner_failures_all_become_empty_plan (jl : JsonLoads) (gw : Gateway)
    (topic : String) :
    (∀ e, gw .planner (plannerPrompt topic) = .error e →
      (create_research_plan jl gw topic).1 = .ok (.jarr []))
    ∧ (∀ text e, gw .planner (plannerPrompt topic) = .ok text → jl text = .error e →
      (create_research_plan jl gw topic).1 = .ok (.jarr []))
    ∧ (∀ text v, gw .planner (plannerPrompt topic) = .ok text → jl text = .ok v →
      (create_research_plan jl gw topic).1 = .ok v) := by
  refine ⟨fun e he => ?_, fun text e hok herr => ?_, fun text v hok hv => ?_⟩ <;>
    simp [create_research_plan_eq, plannerValue, *]

theorem planner_failures_all_become_empty_plan_witness :
    (create_research_plan jlFix gwNonArray "u").1 = .ok (.jnum 42) :=
  (planner_failures_all_become_empty_plan jlFix gwNonArray "u").2.2 "42" (.jnum 42)
    rfl rfl

/-- C6 counterexample: at this concrete failing question the placeholder
answer is "Error: Could not retrieve research for 'q'.", which is not the
spec's "research unavailable for q". -/
theorem placeholder_text_counterexample :
    (conduct_research gwAllFail "t" "q").1 =
      .ok "Error: Could not retrieve research for 'q'."
    ∧ "Error: Could not retrieve research for 'q'." ≠ "research unavailable for q" :=
  ⟨rfl, by decide⟩

/-- C6 amended: when the Model Gateway fails on a research question, the
placeholder answer has the form
"Error: Could not retrieve research for '<question>'.", where <question> is
the failed question's text. -/
theorem placeholder_answer_form (gw : Gateway) (topic question e : String)
    (h : gw .researcher (researcherPrompt topic question) = .error e) :
    (conduct_research gw topic question).1 =
      .ok ("Error: Could not retrieve research for '" ++ question ++ "'.") := by
  simp [conduct_research_eq, researchAnswer, h]

theorem placeholder_answer_form_witness :
    gwAllFail .researcher (researcherPrompt "t" "q2") = .error "quota exceeded"
    ∧ (conduct_research gwAllFail "t" "q2").1 =
        .ok ("Error: Could not retrieve research for '" ++ "q2" ++ "'.") :=
  ⟨rfl, placeholder_answer_form gwAllFail "t" "q2" "quota exceeded" rfl⟩

/-- C8: the Report Synthesizer serializes every finding into a
deterministic textual block — question followed by its answer, in findings
order, with the visible "---" separator after each entry — embeds that
block plus the topic into a single prompt, and on success returns the
gateway's response text verbatim with no post-processing. -/
theorem report_synthesizer_serializes_and_returns_verbatim
    (gw : Gateway) (topic : String) (finds : List Finding) (rep : String)
    (hok : gw .writer (writerPrompt topic (findings_text finds)) = .ok rep) :
    (write_summary_report gw topic finds).1 = .ok rep
    ∧ (write_summary_report gw topic finds).2 =
        [⟨.writer, writerPrompt topic (findings_text finds)⟩]
    ∧ findings_text finds = String.join (finds.map findingBlock)
    ∧ (∀ f, findingBlock f =
        "Question: " ++ pyStr f.question ++ "\nAnswer: " ++ f.answer ++ "\n\n---\n\n")
    ∧ (∃ pre mid post, ∀ t ft, writerPrompt t ft = pre ++ t ++ mid ++ ft ++ post) := by
  refine ⟨?_, ?_, findings_text_eq finds, fun f => rfl, ?_⟩
  · simp [write_summary_report_eq, writerResult, hok]
  · simp [write_summary_report_eq]
  · refine ⟨"\n    You are an expert report writer. Your task is to synthesize the following research findings \n    into a single, cohesive, and well-structured summary report. Do not simply list the answers; \n    weave them together into a coherent narrative that is easy to read and understand.\n\n    The original research topic was: \"",
      "\"\n\n    Use markdown for formatting (e.g., headings, bold text, bullet points) to improve readability.\n    Ensure the final report flows logically from one point to the next.\n\n    Here are the research findings you must use:\n    ",
      "\n    ", fun t ft => ?_⟩
    simp [writerPrompt, String.append_assoc]

theorem report_synthesizer_serializes_and_returns_verbatim_witness :
    gwHappy .writer (writerPrompt "t" (findings_text [⟨.jstr "q", "a"⟩])) =
      .ok "final report"
    ∧ (write_summary_report gwHappy "t" [⟨.jstr "q", "a"⟩]).1 = .ok "final report" :=
  ⟨rfl,
    (report_synthesizer_serializes_and_returns_verbatim gwHappy "t" [⟨.jstr "q", "a"⟩]
      "final report" rfl).1⟩
